import Mathlib

/-!
Shallow embedding of the json_configs library (src/json_configs/__init__.py):
the Context type registry with its access-control policy, the boxing protocol
(box_type / unbox_type), the hook registries behind config_getter /
config_setter, and the top-level dispatch (get_config / configure), restricted
to the JSON-compatible value universe the claims quantify over.

Ambient interpreter state that the Python code reads reflectively
(sys.modules, importlib.import_module, getattr on modules, dir(builtins)) is
modelled by an explicit PyEnv parameter; the process-global CONTEXTS table is
modelled by passing the Context value directly.
-/

namespace JsonConfigs

/-- Python runtime types that participate in the claims: the scalar and
container types covered by the built-in hook registrations, plus arbitrary
user-defined classes identified by their intrinsic module and class name. -/
inductive PyType where
  | noneType
  | boolType
  | intType
  | floatType
  | strType
  | listType
  | dictType
  | user (module_name : String) (class_name : String)
deriving DecidableEq, Repr

/-- The intrinsic module of a type: the Python attribute on the type object
written as two underscores, the word module, and two underscores. All the
built-in scalar and container types live in the builtins module. -/
def PyType.intrinsicModule : PyType → String
  | .user m _ => m
  | _ => "builtins"

/-- The intrinsic class name of a type: the Python name attribute. -/
def PyType.intrinsicName : PyType → String
  | .noneType => "NoneType"
  | .boolType => "bool"
  | .intType => "int"
  | .floatType => "float"
  | .strType => "str"
  | .listType => "list"
  | .dictType => "dict"
  | .user _ c => c

/-- Configuration values (the type alias Configuration in the source):
None, bool, int, float, str, list of Configuration, or string-keyed dict of
Configuration. Floats are modelled by their exact rational value; dicts by
association lists in insertion order (Python dicts preserve insertion order
and have unique keys). -/
inductive Value where
  | vnone
  | vbool (b : Bool)
  | vint (n : Int)
  | vfloat (q : Rat)
  | vstr (s : String)
  | vlist (xs : List Value)
  | vdict (kvs : List (String × Value))

mutual

/-- Decidable equality for Value (the derive handler does not support the
nested occurrence of Value under List). -/
def Value.decEq : (a b : Value) → Decidable (a = b)
  | .vnone, .vnone => .isTrue rfl
  | .vbool a, .vbool b =>
    if h : a = b then .isTrue (by rw [h]) else .isFalse (by intro hh; cases hh; exact h rfl)
  | .vint a, .vint b =>
    if h : a = b then .isTrue (by rw [h]) else .isFalse (by intro hh; cases hh; exact h rfl)
  | .vfloat a, .vfloat b =>
    if h : a = b then .isTrue (by rw [h]) else .isFalse (by intro hh; cases hh; exact h rfl)
  | .vstr a, .vstr b =>
    if h : a = b then .isTrue (by rw [h]) else .isFalse (by intro hh; cases hh; exact h rfl)
  | .vlist xs, .vlist ys =>
    match Value.decEqList xs ys with
    | .isTrue h => .isTrue (by rw [h])
    | .isFalse h => .isFalse (by intro hh; cases hh; exact h rfl)
  | .vdict xs, .vdict ys =>
    match Value.decEqPairs xs ys with
    | .isTrue h => .isTrue (by rw [h])
    | .isFalse h => .isFalse (by intro hh; cases hh; exact h rfl)
  | .vnone, .vbool _ => .isFalse (fun h => Value.noConfusion h)
  | .vnone, .vint _ => .isFalse (fun h => Value.noConfusion h)
  | .vnone, .vfloat _ => .isFalse (fun h => Value.noConfusion h)
  | .vnone, .vstr _ => .isFalse (fun h => Value.noConfusion h)
  | .vnone, .vlist _ => .isFalse (fun h => Value.noConfusion h)
  | .vnone, .vdict _ => .isFalse (fun h => Value.noConfusion h)
  | .vbool _, .vnone => .isFalse (fun h => Value.noConfusion h)
  | .vbool _, .vint _ => .isFalse (fun h => Value.noConfusion h)
  | .vbool _, .vfloat _ => .isFalse (fun h => Value.noConfusion h)
  | .vbool _, .vstr _ => .isFalse (fun h => Value.noConfusion h)
  | .vbool _, .vlist _ => .isFalse (fun h => Value.noConfusion h)
  | .vbool _, .vdict _ => .isFalse (fun h => Value.noConfusion h)
  | .vint _, .vnone => .isFalse (fun h => Value.noConfusion h)
  | .vint _, .vbool _ => .isFalse (fun h => Value.noConfusion h)
  | .vint _, .vfloat _ => .isFalse (fun h => Value.noConfusion h)
  | .vint _, .vstr _ => .isFalse (fun h => Value.noConfusion h)
  | .vint _, .vlist _ => .isFalse (fun h => Value.noConfusion h)
  | .vint _, .vdict _ => .isFalse (fun h => Value.noConfusion h)
  | .vfloat _, .vnone => .isFalse (fun h => Value.noConfusion h)
  | .vfloat _, .vbool _ => .isFalse (fun h => Value.noConfusion h)
  | .vfloat _, .vint _ => .isFalse (fun h => Value.noConfusion h)
  | .vfloat _, .vstr _ => .isFalse (fun h => Value.noConfusion h)
  | .vfloat _, .vlist _ => .isFalse (fun h => Value.noConfusion h)
  | .vfloat _, .vdict _ => .isFalse (fun h => Value.noConfusion h)
  | .vstr _, .vnone => .isFalse (fun h => Value.noConfusion h)
  | .vstr _, .vbool _ => .isFalse (fun h => Value.noConfusion h)
  | .vstr _, .vint _ => .isFalse (fun h => Value.noConfusion h)
  | .vstr _, .vfloat _ => .isFalse (fun h => Value.noConfusion h)
  | .vstr _, .vlist _ => .isFalse (fun h => Value.noConfusion h)
  | .vstr _, .vdict _ => .isFalse (fun h => Value.noConfusion h)
  | .vlist _, .vnone => .isFalse (fun h => Value.noConfusion h)
  | .vlist _, .vbool _ => .isFalse (fun h => Value.noConfusion h)
  | .vlist _, .vint _ => .isFalse (fun h => Value.noConfusion h)
  | .vlist _, .vfloat _ => .isFalse (fun h => Value.noConfusion h)
  | .vlist _, .vstr _ => .isFalse (fun h => Value.noConfusion h)
  | .vlist _, .vdict _ => .isFalse (fun h => Value.noConfusion h)
  | .vdict _, .vnone => .isFalse (fun h => Value.noConfusion h)
  | .vdict _, .vbool _ => .isFalse (fun h => Value.noConfusion h)
  | .vdict _, .vint _ => .isFalse (fun h => Value.noConfusion h)
  | .vdict _, .vfloat _ => .isFalse (fun h => Value.noConfusion h)
  | .vdict _, .vstr _ => .isFalse (fun h => Value.noConfusion h)
  | .vdict _, .vlist _ => .isFalse (fun h => Value.noConfusion h)

/-- Decidable equality for lists of Value. -/
def Value.decEqList : (xs ys : List Value) → Decidable (xs = ys)
  | [], [] => .isTrue rfl
  | [], _ :: _ => .isFalse (fun h => List.noConfusion h)
  | _ :: _, [] => .isFalse (fun h => List.noConfusion h)
  | x :: xs, y :: ys =>
    match Value.decEq x y, Value.decEqList xs ys with
    | .isTrue h1, .isTrue h2 => .isTrue (by rw [h1, h2])
    | .isFalse h1, _ => .isFalse (by intro hh; cases hh; exact h1 rfl)
    | _, .isFalse h2 => .isFalse (by intro hh; cases hh; exact h2 rfl)

/-- Decidable equality for string-keyed association lists of Value. -/
def Value.decEqPairs : (xs ys : List (String × Value)) → Decidable (xs = ys)
  | [], [] => .isTrue rfl
  | [], _ :: _ => .isFalse (fun h => List.noConfusion h)
  | _ :: _, [] => .isFalse (fun h => List.noConfusion h)
  | (k, v) :: xs, (k2, v2) :: ys =>
    if hk : k = k2 then
      match Value.decEq v v2, Value.decEqPairs xs ys with
      | .isTrue h1, .isTrue h2 => .isTrue (by rw [hk, h1, h2])
      | .isFalse h1, _ => .isFalse (by intro hh; cases hh; exact h1 rfl)
      | _, .isFalse h2 => .isFalse (by intro hh; cases hh; exact h2 rfl)
    else .isFalse (by intro hh; cases hh; exact hk rfl)

end

instance : DecidableEq Value := Value.decEq

/-- Python's type function on a Configuration value. -/
def typeOf : Value → PyType
  | .vnone => .noneType
  | .vbool _ => .boolType
  | .vint _ => .intType
  | .vfloat _ => .floatType
  | .vstr _ => .strType
  | .vlist _ => .listType
  | .vdict _ => .dictType

/-- Python's isinstance on the modelled universe. The only proper subclass
relation among the modelled types is bool as a subclass of int. -/
def isInstanceOf (v : Value) (t : PyType) : Bool :=
  typeOf v = t || (typeOf v = .boolType && t = .intType)

/-- Provenance record produced by get_caller_info (an inspect.Traceback in
the source): the file and line of the registration call site. -/
structure Traceback where
  filename : String
  lineno : Nat
deriving DecidableEq, Repr

/-- Exceptions raised by the modelled code paths. namingConflict and
accessDenied are the NameError variants (the spec's NamingConflict and
AccessDenied), locateFailed is the ValueError from Context.locate,
notConfigurable is the TypeError from the dispatchers, keyError and
moduleNotFound and attributeError are the corresponding Python errors, and
assertFailed is a failed assert statement. notModelled marks source branches
that leave the modelled value universe (documented at each use site). -/
inductive Err where
  | namingConflict (filename : String) (lineno : Nat)
  | accessDenied (module_name : String) (class_name : String)
  | locateFailed (module_name : String) (class_name : String)
  | notConfigurable (module_name : String) (class_name : String)
  | keyError
  | moduleNotFound (module_name : String)
  | attributeError (module_name : String) (class_name : String)
  | assertFailed
  | notModelled (what : String)
deriving DecidableEq, Repr

/-- Association-list lookup, modelling Python dict indexing and the in
operator on dicts (Python dicts have unique keys, so first match suffices). -/
def alistGet {α β : Type} [DecidableEq α] : List (α × β) → α → Option β
  | [], _ => none
  | (k, v) :: rest, key => if k = key then some v else alistGet rest key

/-- Association-list update, modelling Python dict assignment: replaces the
value in place when the key is present, appends otherwise. -/
def alistSet {α β : Type} [DecidableEq α] : List (α × β) → α → β → List (α × β)
  | [], key, value => [(key, value)]
  | (k, v) :: rest, key, value =>
    if k = key then (key, value) :: rest else (k, v) :: alistSet rest key value

/-- Association-list deletion, modelling the Python del statement on a dict:
raises KeyError when the key is absent. -/
def alistDel {α β : Type} [DecidableEq α] : List (α × β) → α → Except Err (List (α × β))
  | [], _ => .error .keyError
  | (k, v) :: rest, key =>
    if k = key then .ok rest
    else
      match alistDel rest key with
      | .error e => .error e
      | .ok rest2 => .ok ((k, v) :: rest2)

/-- Ambient Python interpreter state read reflectively by the source:
the names in sys.modules, which module names importlib.import_module can
import, the types reachable as getattr on an imported module (only
type-valued attributes are modelled, so a missing entry covers both
AttributeError and the TypeError branch of Context.get_type), and the public
names of a module as computed by Context.get_public_names. -/
structure PyEnv where
  sys_modules : List String
  importable_modules : List String
  module_attr : String → String → Option PyType
  public_names : String → List String

/-- A Context from the source: the per-context registry of locatable types,
registration provenance, the reverse location map, and the access-control
policy state. Sets are modelled as lists, dicts as association lists. -/
structure Context where
  name : String
  registry : List ((String × String) × PyType)
  registered_from : List ((String × String) × Traceback)
  location_map : List (PyType × (String × String))
  all_modules_allowed_by_default : Bool
  imported_modules_allowed_by_default : Bool
  public_classes_allowed_by_default : Bool
  specifically_allowed_modules : List String
  specifically_denied_modules : List String
  specifically_allowed_classes : List (String × String)
  specifically_denied_classes : List (String × String)
deriving DecidableEq, Repr

/-- Names in dir(builtins) that are bound to type objects and do not start
with an underscore. The source computes this set reflectively in
Context.init; the model enumerates a representative subset (every name
listed here genuinely is a builtins type in any Python 3, and the claims
only need the names they mention to be present). -/
def builtinsTypeNames : List String :=
  ["BaseException", "Exception", "ValueError", "TypeError", "NameError",
   "AttributeError", "KeyError", "StopIteration", "bool", "bytearray",
   "bytes", "complex", "dict", "enumerate", "filter", "float", "frozenset",
   "int", "list", "map", "memoryview", "object", "property", "range",
   "reversed", "set", "slice", "str", "super", "tuple", "type", "zip"]

/-- Names in dir(datetime) that are bound to type objects and do not start
with an underscore, as preregistered by Context.init. -/
def datetimeTypeNames : List String :=
  ["date", "datetime", "time", "timedelta", "timezone", "tzinfo"]

/-- Context construction (Context.init in the source): empty registry, all
default-posture flags false, builtins specifically allowed as a module, and
the builtins, datetime, and abc.ABCMeta type names preregistered as
specifically allowed classes. -/
def Context.init (name : String) : Context :=
  { name := name
    registry := []
    registered_from := []
    location_map := []
    all_modules_allowed_by_default := false
    imported_modules_allowed_by_default := false
    public_classes_allowed_by_default := false
    specifically_allowed_modules := ["builtins"]
    specifically_denied_modules := []
    specifically_allowed_classes :=
      builtinsTypeNames.map (fun n => ("builtins", n)) ++
      datetimeTypeNames.map (fun n => ("datetime", n)) ++ [("abc", "ABCMeta")]
    specifically_denied_classes := [] }

/-- The process-wide default Context (CONTEXTS of None in the source). -/
def defaultContext : Context := Context.init "default"

/-- Context.module_access_is_allowed: denied modules fail; allowed modules
succeed; otherwise, only when imported_modules_allowed_by_default is set,
the result is all_modules_allowed_by_default or membership in sys.modules;
otherwise false. -/
def Context.module_access_is_allowed (self : Context) (env : PyEnv)
    (module_name : String) : Bool :=
  if module_name ∈ self.specifically_denied_modules then false
  else if module_name ∈ self.specifically_allowed_modules then true
  else if self.imported_modules_allowed_by_default then
    self.all_modules_allowed_by_default || module_name ∈ env.sys_modules
  else false

/-- Context.get_module: returns None when access is not allowed; imports the
module when load_module is set (raising when the module cannot be imported);
otherwise reads sys.modules. A module is represented by its name. -/
def Context.get_module (self : Context) (env : PyEnv) (module_name : String)
    (load_module : Bool) : Except Err (Option String) :=
  if ¬ self.module_access_is_allowed env module_name then .ok none
  else if load_module then
    if module_name ∈ env.importable_modules then .ok (some module_name)
    else .error (.moduleNotFound module_name)
  else .ok (if module_name ∈ env.sys_modules then some module_name else none)

/-- Context.class_access_is_allowed: denied pairs fail; allowed pairs
succeed; otherwise false unless public_classes_allowed_by_default, in which
case the module is fetched and the class name checked against its public
names. -/
def Context.class_access_is_allowed (self : Context) (env : PyEnv)
    (module_name : String) (class_name : String) (load_module : Bool) :
    Except Err Bool :=
  if (module_name, class_name) ∈ self.specifically_denied_classes then .ok false
  else if (module_name, class_name) ∈ self.specifically_allowed_classes then .ok true
  else if ¬ self.public_classes_allowed_by_default then .ok false
  else
    match self.get_module env module_name load_module with
    | .error e => .error e
    | .ok none => .ok false
    | .ok (some mod) => .ok (class_name ∈ env.public_names mod)

/-- Context.get_type: a registered pair resolves to its registered type;
otherwise the access-control check must pass (else the AccessDenied
NameError), the module is imported unconditionally, and the class is fetched
from it by getattr. Only type-valued module attributes occur in the model,
so the isinstance TypeError branch is unreachable. -/
def Context.get_type (self : Context) (env : PyEnv) (module_name : String)
    (class_name : String) (load_module : Bool) : Except Err PyType :=
  match alistGet self.registry (module_name, class_name) with
  | some t => .ok t
  | none =>
    match self.class_access_is_allowed env module_name class_name load_module with
    | .error e => .error e
    | .ok allowed =>
      if ¬ allowed then .error (.accessDenied module_name class_name)
      else if module_name ∉ env.importable_modules then
        .error (.moduleNotFound module_name)
      else
        match env.module_attr module_name class_name with
        | some t => .ok t
        | none => .error (.attributeError module_name class_name)

/-- Context.locate: a type present in the location map resolves to its
registered pair; otherwise its intrinsic module and name must resolve back
to the very same type through get_type, else the ValueError. -/
def Context.locate (self : Context) (env : PyEnv) (type_ : PyType) :
    Except Err (String × String) :=
  match alistGet self.location_map type_ with
  | some pair => .ok pair
  | none =>
    match self.get_type env type_.intrinsicModule type_.intrinsicName false with
    | .error e => .error e
    | .ok t =>
      if t = type_ then .ok (type_.intrinsicModule, type_.intrinsicName)
      else .error (.locateFailed type_.intrinsicModule type_.intrinsicName)

/-- The three keys of a boxed value. -/
def boxKeys : List String := ["__module__", "__class__", "__instance__"]

/-- Python's equality between a dict's key view and the set literal of the
three box keys: set equality of the dict's keys with boxKeys (Python dict
keys are unique, so membership both ways is set equality). -/
def keySetIsBox (kvs : List (String × Value)) : Bool :=
  (kvs.map Prod.fst).all (fun k => k ∈ boxKeys) &&
  boxKeys.all (fun k => k ∈ kvs.map Prod.fst)

/-- A Configuration is a boxed value when it is a dict whose key set is
exactly the three box keys. -/
def isBoxed : Value → Bool
  | .vdict kvs => keySetIsBox kvs
  | _ => false

/-- The dict literal box_type builds when it wraps: exactly the three box
keys, in the keyword-argument order of the source. -/
def mkBox (module_name : String) (class_name : String) (config : Value) : Value :=
  .vdict [("__module__", .vstr module_name), ("__class__", .vstr class_name),
          ("__instance__", config)]

/-- The idempotence condition box_type tests: the config is a boxed value
whose module and class entries equal the given tag. -/
def isBoxedWith (module_name : String) (class_name : String) : Value → Bool
  | .vdict kvs =>
    keySetIsBox kvs &&
    decide (alistGet kvs "__module__" = some (.vstr module_name)) &&
    decide (alistGet kvs "__class__" = some (.vstr class_name))
  | _ => false

/-- The module and class tag of a boxed value, when both entries are
strings. -/
def boxTag : Value → Option (String × String)
  | .vdict kvs =>
    if keySetIsBox kvs then
      match alistGet kvs "__module__", alistGet kvs "__class__" with
      | some (.vstr m), some (.vstr c) => some (m, c)
      | _, _ => none
    else none
  | _ => none

/-- box_type from the source: locate the type in the context, return the
config unchanged when it is already a boxed value carrying exactly that
module and class tag, and otherwise wrap it in a fresh three-key box. -/
def box_type (env : PyEnv) (context : Context) (type_ : PyType)
    (config : Value) : Except Err Value :=
  match context.locate env type_ with
  | .error e => .error e
  | .ok (module_name, class_name) =>
    if isBoxedWith module_name class_name config then .ok config
    else .ok (mkBox module_name class_name config)

/-- unbox_type from the source: a dict whose key set is exactly the three
box keys resolves its tag through Context.get_type and yields the entry
under the instance key; any other value yields its own runtime type and
itself unchanged. Box tags that are not strings send the Python code into
module machinery outside the modelled universe, hence notModelled. -/
def unbox_type (env : PyEnv) (context : Context) (config : Value) :
    Except Err (PyType × Value) :=
  match config with
  | .vdict kvs =>
    if keySetIsBox kvs then
      match alistGet kvs "__module__", alistGet kvs "__class__",
            alistGet kvs "__instance__" with
      | some (.vstr module_name), some (.vstr class_name), some inner =>
        match context.get_type env module_name class_name false with
        | .error e => .error e
        | .ok type_ => .ok (type_, inner)
      | _, _, _ => .error (.notModelled "non-string box tag")
    else .ok (.dictType, .vdict kvs)
  | v => .ok (typeOf v, v)

/-- Looking a key up in an association list finds a strictly smaller value. -/
theorem alistGet_sizeOf_lt : ∀ (kvs : List (String × Value)) (k : String)
    (v : Value), alistGet kvs k = some v → sizeOf v < sizeOf kvs
  | [], _, _, h => by simp [alistGet] at h
  | (k1, v1) :: rest, k, v, h => by
    by_cases hk : k1 = k
    · simp [alistGet, hk] at h
      subst h
      simp
      omega
    · simp [alistGet, hk] at h
      have := alistGet_sizeOf_lt rest k v h
      simp
      omega

/-- The configuration returned by unbox_type is no larger than its input:
it is either the input itself or the entry under the instance key. -/
theorem unbox_type_sizeOf_le (env : PyEnv) (context : Context) (config : Value)
    (t : PyType) (c : Value) (h : unbox_type env context config = .ok (t, c)) :
    sizeOf c ≤ sizeOf config := by
  unfold unbox_type at h
  split at h
  · rename_i kvs
    split at h
    · split at h
      · rename_i inner hmatch
        split at h
        · simp at h
        · cases h
          have := alistGet_sizeOf_lt kvs "__instance__" c hmatch
          simp
          omega
      · simp at h
    · cases h
      exact Nat.le_refl _
  · cases h
    exact Nat.le_refl _

/-- Lines 460 to 464 of get_config: the typed-flag logic applied after the
encoder has produced its raw configuration. The flag is_configurable_obj
records whether the encoded object is an instance of Configurable. -/
def dispatch_typed (env : PyEnv) (context : Context) (is_configurable_obj : Bool)
    (obj_type : PyType) (config : Value) (typed : Option Bool) :
    Except Err Value :=
  if typed = some true ∨ (typed = none ∧ is_configurable_obj) then
    box_type env context obj_type config
  else if typed ≠ none then
    match unbox_type env context config with
    | .error e => .error e
    | .ok (_, c) => .ok c
  else .ok config

/-- get_simple_config: scalars encode as themselves. -/
def get_simple_config (x : Value) : Value := x

mutual

/-- get_iterable_config on a list argument: elementwise get_config with the
default typed flag (None). The source registers the same hook for tuple, set
and frozenset with a type box; those types lie outside the modelled value
universe. -/
def get_iterable_config (env : PyEnv) (context : Context) :
    List Value → Except Err (List Value)
  | [] => .ok []
  | x :: rest =>
    match get_config env context x none with
    | .error e => .error e
    | .ok y =>
      match get_iterable_config env context rest with
      | .error e => .error e
      | .ok ys => .ok (y :: ys)

/-- get_mapping_config: in the modelled universe every dict key is a string,
so only the dict-comprehension branch of the source is reachable; the branch
for mappings with non-string keys (which boxes a pair list) cannot arise. -/
def get_mapping_config (env : PyEnv) (context : Context) :
    List (String × Value) → Except Err (List (String × Value))
  | [] => .ok []
  | (k, v) :: rest =>
    match get_config env context v none with
    | .error e => .error e
    | .ok w =>
      match get_mapping_config env context rest with
      | .error e => .error e
      | .ok ws => .ok ((k, w) :: ws)

/-- get_config (dispatch layer, lines 453 to 464) on the modelled value
universe: no value in the universe is Configurable, and every runtime type
in it has a hook in GET_CONFIG_REGISTRY (the scalar, list and dict hooks are
registered with typed false, so the registry holds the raw encoder
functions). The typed flag is then applied by dispatch_typed. -/
def get_config (env : PyEnv) (context : Context) (obj : Value)
    (typed : Option Bool) : Except Err Value :=
  let raw : Except Err Value :=
    match obj with
    | .vnone | .vbool _ | .vint _ | .vfloat _ | .vstr _ =>
      .ok (get_simple_config obj)
    | .vlist xs =>
      match get_iterable_config env context xs with
      | .error e => .error e
      | .ok ys => .ok (.vlist ys)
    | .vdict kvs =>
      match get_mapping_config env context kvs with
      | .error e => .error e
      | .ok kws => .ok (.vdict kws)
  match raw with
  | .error e => .error e
  | .ok config => dispatch_typed env context false (typeOf obj) config typed

end

/-- configure_simple: returns the existing instance when the config equals
it, else the config. Python's cross-type numeric equality (for example 1
equal to True) is modelled as structural equality; both branches of the
comparison return structurally identical results, and the claims only ever
compare values of equal runtime type here. The absent-instance case
compares the config against the Python None object. -/
def configure_simple (config : Value) (inst : Option Value) : Value :=
  match inst with
  | some i => if config = i then i else config
  | none => if config = .vnone then .vnone else config

/-- The conversion fallback at the end of configure, calling the target type
on the mismatched result. Calling list on the generator returned by
configure_iterable is modelled inside the list dispatch arm of configure;
no other conversion is reachable from values in the modelled universe, so
the remaining conversions are flagged rather than modelled. -/
def call_type (t : PyType) (_v : Value) : Except Err Value :=
  .error (.notModelled ("constructor conversion to " ++ t.intrinsicName))

mutual

/-- configure_iterable: asserts the config is a list and decodes it
elementwise. The source returns a lazy generator that configure immediately
forces with the list constructor in its conversion fallback; the model
returns the forced element list directly, with errors propagating at the
same elementwise points. -/
def configure_iterable (env : PyEnv) (context : Context) (config : Value) :
    Except Err (List Value) :=
  match config with
  | .vlist xs => configure_elements env context xs
  | _ => .error .assertFailed
termination_by 2 * sizeOf config
decreasing_by all_goals (simp_wf <;> (first | omega | (simp; omega) | simp))

/-- The element loop of configure_iterable. -/
def configure_elements (env : PyEnv) (context : Context) :
    List Value → Except Err (List Value)
  | [] => .ok []
  | x :: rest =>
    match configure env context x none with
    | .error e => .error e
    | .ok y =>
      match configure_elements env context rest with
      | .error e => .error e
      | .ok ys => .ok (y :: ys)
termination_by xs => 2 * sizeOf xs
decreasing_by all_goals (simp_wf <;> (first | omega | (simp; omega) | simp))

/-- configure_mapping: a dict config decodes its values elementwise; any
other config must be a list of key-value pairs, which decodes to a dict with
arbitrarily-typed keys and therefore leaves the modelled string-keyed
universe. -/
def configure_mapping (env : PyEnv) (context : Context) (config : Value) :
    Except Err Value :=
  match config with
  | .vdict kvs =>
    match configure_values env context kvs with
    | .error e => .error e
    | .ok kws => .ok (.vdict kws)
  | .vlist _ => .error (.notModelled "mapping decoded from a pair list")
  | _ => .error .assertFailed
termination_by 2 * sizeOf config
decreasing_by all_goals (simp_wf <;> (first | omega | (simp; omega) | simp))

/-- The value loop of the dict branch of configure_mapping. -/
def configure_values (env : PyEnv) (context : Context) :
    List (String × Value) → Except Err (List (String × Value))
  | [] => .ok []
  | (k, v) :: rest =>
    match configure env context v none with
    | .error e => .error e
    | .ok w =>
      match configure_values env context rest with
      | .error e => .error e
      | .ok ws => .ok ((k, w) :: ws)
termination_by kvs => 2 * sizeOf kvs
decreasing_by all_goals (simp_wf <;> (first | omega | (simp; omega) | simp))

/-- configure (dispatch layer, lines 467 to 481) on the modelled value
universe: unbox to learn the target type, discard a caller-supplied instance
of the wrong type, dispatch to the CONFIGURE_REGISTRY hook of the target
type (no type in the universe is Configurable, and unregistered user types
raise the TypeError), and finally apply the conversion fallback when the
result is not an instance of the target type. -/
def configure (env : PyEnv) (context : Context) (config : Value)
    (inst : Option Value) : Except Err Value :=
  match h : unbox_type env context config with
  | .error e => .error e
  | .ok (type_, c) =>
    let inst1 : Option Value :=
      match inst with
      | some i => if isInstanceOf i type_ then some i else none
      | none => none
    let result : Except Err Value :=
      match type_ with
      | .noneType | .boolType | .intType | .floatType | .strType =>
        .ok (configure_simple c inst1)
      | .listType =>
        match configure_iterable env context c with
        | .error e => .error e
        | .ok ys => .ok (.vlist ys)
      | .dictType => configure_mapping env context c
      | .user m n => .error (.notConfigurable m n)
    match result with
    | .error e => .error e
    | .ok r => if isInstanceOf r type_ then .ok r else call_type type_ r
termination_by 2 * sizeOf config + 1
decreasing_by all_goals
  (simp_wf; have := unbox_type_sizeOf_le env context config _ c h; omega)

end

/-- A concrete interpreter environment for evaluating concrete inputs: the
modules loaded by importing json_configs, and the scalar and container types
as attributes of the builtins module. -/
def defaultEnv : PyEnv :=
  { sys_modules := ["sys", "builtins", "abc", "datetime", "importlib",
                    "inspect", "json_configs"]
    importable_modules := ["sys", "builtins", "abc", "datetime", "importlib",
                           "inspect", "json_configs"]
    module_attr := fun module_name class_name =>
      if module_name = "builtins" then
        if class_name = "bool" then some .boolType
        else if class_name = "int" then some .intType
        else if class_name = "float" then some .floatType
        else if class_name = "str" then some .strType
        else if class_name = "list" then some .listType
        else if class_name = "dict" then some .dictType
        else none
      else none
    public_names := fun _ => [] }

/-- The entry under the instance key of a boxed value. -/
def boxInstance : Value → Option Value
  | .vdict kvs => alistGet kvs "__instance__"
  | _ => none

mutual

/-- A value is box-free when no dict anywhere inside it has exactly the
three box keys as its key set. Such values can never be mistaken for a
boxed value by unbox_type at any recursion depth. -/
def boxFree : Value → Bool
  | .vnone | .vbool _ | .vint _ | .vfloat _ | .vstr _ => true
  | .vlist xs => boxFreeList xs
  | .vdict kvs => !keySetIsBox kvs && boxFreePairs kvs

/-- Box-freedom for every element of a list. -/
def boxFreeList : List Value → Bool
  | [] => true
  | x :: rest => boxFree x && boxFreeList rest

/-- Box-freedom for every value of an association list. -/
def boxFreePairs : List (String × Value) → Bool
  | [] => true
  | (_, v) :: rest => boxFree v && boxFreePairs rest

end

/-- What the property loop of AutoConfigured.get_config (lines 540 to 553)
and WrapAutoConfig.get_config (lines 396 to 409) stores in the config
mapping for one property: either a Configuration, or — in the branch where
a property type is declared — the entire pair returned by unbox_type, which
the source assigns to property_config without destructuring. -/
inductive PropEntry where
  | plain (config : Value)
  | pair (type_ : PyType) (config : Value)
deriving DecidableEq

/-- One iteration of the property loop of AutoConfigured.get_config and
WrapAutoConfig.get_config for a property whose value lies in the modelled
universe: encode the property value with get_config at the default typed
flag; when get_property_type declares an expected type for the property,
the source then rebinds property_config to the result of unbox_type — the
(type, configuration) tuple itself — and stores that under the property
name. -/
def encode_property (env : PyEnv) (context : Context) (property_value : Value)
    (property_type : Option PyType) : Except Err PropEntry :=
  match get_config env context property_value none with
  | .error e => .error e
  | .ok property_config =>
    match property_type with
    | none => .ok (.plain property_config)
    | some _ =>
      match unbox_type env context property_config with
      | .error e => .error e
      | .ok tc => .ok (.pair tc.1 tc.2)

/-- Context.register (lines 88 to 127) restricted to the single-type call
shape (the first argument is a type, not a sequence), with auto false and
the registered type not a WrapAutoConfig subclass — the shape every claim
exercises; the sequence form just runs this body once per element. The
caller frame info that get_caller_info reads from the interpreter stack
is passed explicitly. -/
def Context.register (self : Context) (type_ : PyType)
    (module_name : Option String) (class_name : Option String)
    (overwrite : Bool) (caller : Traceback) : Except Err Context :=
  let module_name := module_name.getD type_.intrinsicModule
  let class_name := class_name.getD type_.intrinsicName
  let key := (module_name, class_name)
  if ¬ (overwrite ∨ alistGet self.registry key = none ∨
        alistGet self.registry key = some type_) then
    match alistGet self.registered_from key with
    | some info => .error (.namingConflict info.filename info.lineno)
    | none => .error .keyError
  else
    let deleted : Except Err (List (PyType × (String × String))) :=
      match alistGet self.registry key with
      | some old =>
        if overwrite then alistDel self.location_map old
        else .ok self.location_map
      | none => .ok self.location_map
    match deleted with
    | .error e => .error e
    | .ok loc =>
      .ok { self with
            registry := alistSet self.registry key type_
            registered_from := alistSet self.registered_from key caller
            location_map := alistSet loc type_ key }

/-- An entry of GET_CONFIG_REGISTRY: the registered encoder function
(functions are identified by opaque numeric ids) together with whether
config_getter wrapped it with the config_type_boxer (the typed flag). -/
structure GetterEntry where
  func : Nat
  boxer_wrapped : Bool
deriving DecidableEq, Repr

/-- The module-global state touched by config_getter: GET_CONFIG_REGISTRY
and the GET_CONFIG_FROM provenance map. The config_setter pair behaves
identically over CONFIGURE_REGISTRY and CONFIGURE_FROM. -/
structure GetterState where
  registry : List (PyType × GetterEntry)
  provenance : List (PyType × Traceback)
deriving DecidableEq, Repr

/-- What config_getter returns: the supplied function itself when one was
passed, or — in the func-is-None decorator branch — a closure capturing
only the types and the typed flag. The closure does not capture the
overwrite flag. -/
inductive GetterResult where
  | registered (func : Nat)
  | decorator (types : List PyType) (typed : Bool)
deriving DecidableEq, Repr

/-- The conflict loop at the top of config_getter: the first type already
present in GET_CONFIG_REGISTRY raises the NameError carrying the prior
registration's file and line from GET_CONFIG_FROM. -/
def getter_conflict_check (st : GetterState) : List PyType → Except Err Unit
  | [] => .ok ()
  | type_ :: rest =>
    match alistGet st.registry type_ with
    | some _ =>
      match alistGet st.provenance type_ with
      | some info => .error (.namingConflict info.filename info.lineno)
      | none => .error .keyError
    | none => getter_conflict_check st rest

/-- The registration loop at the bottom of config_getter: each type is
bound to the function (boxer-wrapped when typed) and to the caller's frame
info. -/
def getter_store (typed : Bool) (func : Nat) (caller : Traceback) :
    GetterState → List PyType → GetterState
  | st, [] => st
  | st, type_ :: rest =>
    getter_store typed func caller
      { registry := alistSet st.registry type_ ⟨func, typed⟩
        provenance := alistSet st.provenance type_ caller } rest

/-- config_getter (lines 230 to 257): when overwrite is false every type is
first checked against GET_CONFIG_REGISTRY; then, when no func was supplied,
the decorator closure is returned without touching the registry; otherwise
each type is bound to the possibly-wrapped function. -/
def config_getter (types : List PyType) (typed : Bool) (func : Option Nat)
    (overwrite : Bool) (caller : Traceback) (st : GetterState) :
    Except Err (GetterState × GetterResult) :=
  match (if ¬ overwrite then getter_conflict_check st types else .ok ()) with
  | .error e => .error e
  | .ok _ =>
    match func with
    | none => .ok (st, .decorator types typed)
    | some f => .ok (getter_store typed f caller st types, .registered f)

/-- Applying the value returned by config_getter to the decorated function.
The decorator closure of the source (the lambda of line 249) calls
config_getter again with the captured types and typed flag, the decorated
function, and every other parameter at its default — in particular
overwrite at its default of false. Applying the non-decorator result would
call the registered encoder itself, which is outside this model. -/
def apply_getter_decorator (r : GetterResult) (f : Nat) (caller : Traceback)
    (st : GetterState) : Except Err (GetterState × GetterResult) :=
  match r with
  | .decorator types typed => config_getter types typed (some f) false caller st
  | .registered _ => .error (.notModelled "calling the registered encoder")

/-- Decidable equality for Except results over decidable components. -/
instance {ε α : Type} [DecidableEq ε] [DecidableEq α] :
    DecidableEq (Except ε α)
  | .error e, .error f =>
    if h : e = f then .isTrue (by rw [h])
    else .isFalse (by intro hh; cases hh; exact h rfl)
  | .ok a, .ok b =>
    if h : a = b then .isTrue (by rw [h])
    else .isFalse (by intro hh; cases hh; exact h rfl)
  | .error _, .ok _ => .isFalse (fun h => Except.noConfusion h)
  | .ok _, .error _ => .isFalse (fun h => Except.noConfusion h)

/-- The concrete round-trip value named by the spec and the claim. -/
def c1_spec_value : Value :=
  .vlist [.vdict [("a", .vint 1), ("b", .vlist [.vint 2, .vint 3])],
          .vlist [.vstr "4", .vstr "5",
                  .vdict [("x", .vstr "x"), ("y", .vfloat (-10)), ("z", .vnone)]]]

/-- A string-keyed mapping of scalars whose key set happens to coincide with
the three box keys. Its runtime type is dict, so it lies in the claimed
round-trip universe, but configure reinterprets its encoded form (itself) as
a boxed int. -/
def c1_collision_value : Value :=
  .vdict [("__module__", .vstr "builtins"), ("__class__", .vstr "int"),
          ("__instance__", .vint 5)]

/-- The inner boxed dict of the C3 counterexample. -/
def c3_inner_box : Value :=
  .vdict [("__module__", .vstr "builtins"), ("__class__", .vstr "int"),
          ("__instance__", .vint 5)]

/-- A dict value that is boxed-shaped and whose instance entry is itself
boxed-shaped. -/
def c3_double_box : Value :=
  .vdict [("__module__", .vstr "builtins"), ("__class__", .vstr "int"),
          ("__instance__", c3_inner_box)]

/-- A context holding one registered user type, exactly as produced by
registering it into a fresh context from the file reg.py, line 7. -/
def oneTypeContext : Context :=
  { Context.init "one" with
    registry := [(("mod", "Cls"), .user "mod" "Cls")]
    registered_from := [(("mod", "Cls"), ⟨"reg.py", 7⟩)]
    location_map := [(.user "mod" "Cls", ("mod", "Cls"))] }

/-- A context whose default posture is all off but with the flag meant to
allow all modules by default switched on. -/
def c2_context : Context :=
  { Context.init "c2" with all_modules_allowed_by_default := true }

/-- The prior hook-registry state of the C7 evaluation: an encoder already
registered for int from the file hooks.py, line 10. -/
def c7_state : GetterState :=
  { registry := [(.intType, ⟨1, false⟩)]
    provenance := [(.intType, ⟨"hooks.py", 10⟩)] }

/-- A context exercising every precedence combination: a module and a pair
that are denied, a module and a pair that are allowed, and a pair that is
both denied and allowed. -/
def c9_context : Context :=
  { Context.init "w9" with
    specifically_denied_modules := ["denm"]
    specifically_allowed_modules := ["allm"]
    specifically_denied_classes := [("denm", "D"), ("bothm", "B")]
    specifically_allowed_classes := [("allm", "A"), ("bothm", "B")] }

/-- Association-list update stores the new value under the key. -/
theorem alistGet_alistSet_self {α β : Type} [DecidableEq α] :
    ∀ (l : List (α × β)) (k : α) (v : β), alistGet (alistSet l k v) k = some v
  | [], k, v => by simp [alistSet, alistGet]
  | (k1, v1) :: rest, k, v => by
    by_cases h : k1 = k
    · simp [alistSet, alistGet, h]
    · simp [alistSet, alistGet, h, alistGet_alistSet_self rest k v]

/-- Association-list update leaves other keys untouched. -/
theorem alistGet_alistSet_ne {α β : Type} [DecidableEq α] :
    ∀ (l : List (α × β)) (k k2 : α) (v : β), k2 ≠ k →
      alistGet (alistSet l k v) k2 = alistGet l k2
  | [], k, k2, v, h => by
    simp only [alistSet, alistGet]
    rw [if_neg (fun hh => h hh.symm)]
  | (k1, v1) :: rest, k, k2, v, h => by
    by_cases hk : k1 = k
    · subst hk
      simp only [alistSet, if_pos rfl, alistGet]
      rw [if_neg (fun hh => h hh.symm), if_neg (fun hh => h hh.symm)]
    · simp only [alistSet, if_neg hk, alistGet]
      by_cases hk2 : k1 = k2
      · simp [hk2]
      · simp [hk2, alistGet_alistSet_ne rest k k2 v h]

/-- Deleting a key that is present succeeds. -/
theorem alistDel_isOk {α β : Type} [DecidableEq α] :
    ∀ (l : List (α × β)) (k : α) (v : β), alistGet l k = some v →
      ∃ l2, alistDel l k = .ok l2
  | [], k, v, h => by simp [alistGet] at h
  | (k1, v1) :: rest, k, v, h => by
    by_cases hk : k1 = k
    · exact ⟨rest, by simp [alistDel, hk]⟩
    · simp only [alistGet, if_neg hk] at h
      obtain ⟨l2, hl2⟩ := alistDel_isOk rest k v h
      exact ⟨(k1, v1) :: l2, by simp [alistDel, hk, hl2]⟩

/-- Lookup misses when the key is absent from the association list. -/
theorem alistGet_eq_none_of_not_mem {α β : Type} [DecidableEq α] :
    ∀ (l : List (α × β)) (k : α), k ∉ l.map Prod.fst → alistGet l k = none
  | [], _, _ => rfl
  | (k1, v1) :: rest, k, h => by
    simp only [List.map, List.mem_cons, not_or] at h
    simp only [alistGet]
    rw [if_neg (fun hh => h.1 hh.symm)]
    exact alistGet_eq_none_of_not_mem rest k h.2

/-- After deleting a key from an association list with no duplicate keys,
lookup of that key misses. -/
theorem alistGet_after_del {α β : Type} [DecidableEq α] :
    ∀ (l l2 : List (α × β)) (k : α), (l.map Prod.fst).Nodup →
      alistDel l k = .ok l2 → alistGet l2 k = none
  | [], l2, k, _, h => by simp [alistDel] at h
  | (k1, v1) :: rest, l2, k, hnd, h => by
    simp only [List.map, List.nodup_cons] at hnd
    by_cases hk : k1 = k
    · subst hk
      simp only [alistDel, if_pos rfl] at h
      cases h
      exact alistGet_eq_none_of_not_mem rest k1 hnd.1
    · simp only [alistDel, if_neg hk] at h
      split at h
      · cases h
      · rename_i rest2 hdel
        cases h
        simp only [alistGet]
        rw [if_neg hk]
        exact alistGet_after_del rest rest2 k hnd.2 hdel

/-- A value satisfying the box_type idempotence test is a boxed value whose
tag is the tested pair. -/
theorem isBoxedWith_boxTag (m c : String) (cfg : Value)
    (h : isBoxedWith m c cfg = true) :
    isBoxed cfg = true ∧ boxTag cfg = some (m, c) := by
  cases cfg
  case vdict kvs =>
    simp only [isBoxedWith, Bool.and_eq_true, decide_eq_true_eq] at h
    refine ⟨h.1.1, ?_⟩
    simp [boxTag, h.1.1, h.1.2, h.2]
  all_goals simp [isBoxedWith] at h

/-- A boxed value whose tag differs from the tested pair fails the
idempotence test of box_type. -/
theorem isBoxedWith_false_of_tag_ne (m c m2 c2 : String) (cfg : Value)
    (htag : boxTag cfg = some (m2, c2)) (hne : (m2, c2) ≠ (m, c)) :
    isBoxedWith m c cfg = false := by
  by_contra hb
  rw [Bool.not_eq_false] at hb
  obtain ⟨_, htag2⟩ := isBoxedWith_boxTag m c cfg hb
  rw [htag] at htag2
  exact hne (Option.some.inj htag2)

mutual

/-- On the modelled universe, encoding with the default typed flag is the
identity: the scalar, list and dict hooks rebuild the value unchanged. -/
theorem get_config_id (env : PyEnv) (context : Context) :
    ∀ (v : Value), get_config env context v none = .ok v
  | .vnone => rfl
  | .vbool _ => rfl
  | .vint _ => rfl
  | .vfloat _ => rfl
  | .vstr _ => rfl
  | .vlist xs => by
    simp [get_config, get_iterable_config_id env context xs, dispatch_typed]
  | .vdict kvs => by
    simp [get_config, get_mapping_config_id env context kvs, dispatch_typed]

/-- Elementwise identity of the list hook. -/
theorem get_iterable_config_id (env : PyEnv) (context : Context) :
    ∀ (xs : List Value), get_iterable_config env context xs = .ok xs
  | [] => rfl
  | x :: rest => by
    simp [get_iterable_config, get_config_id env context x,
          get_iterable_config_id env context rest]

/-- Valuewise identity of the mapping hook. -/
theorem get_mapping_config_id (env : PyEnv) (context : Context) :
    ∀ (kvs : List (String × Value)), get_mapping_config env context kvs = .ok kvs
  | [] => rfl
  | (k, v) :: rest => by
    simp [get_mapping_config, get_config_id env context v,
          get_mapping_config_id env context rest]

end

mutual

/-- On box-free values, decoding is the identity: no dict is mistaken for a
type tag, so every dispatch lands on the hook of the value's own runtime
type, which rebuilds it unchanged. -/
theorem configure_id (env : PyEnv) (context : Context) :
    ∀ (v : Value), boxFree v = true → configure env context v none = .ok v
  | .vnone, _ => by simp only [configure]; rfl
  | .vbool b, _ => by simp only [configure]; rfl
  | .vint n, _ => by simp only [configure]; rfl
  | .vfloat q, _ => by simp only [configure]; rfl
  | .vstr s, _ => by simp only [configure]; rfl
  | .vlist xs, h => by
    simp only [boxFree] at h
    simp only [configure]
    split
    · next e heq => simp [unbox_type] at heq
    · next type_ c heq =>
      simp only [unbox_type] at heq
      cases heq
      simp [configure_iterable, configure_elements_id env context xs h,
            isInstanceOf, typeOf]
  | .vdict kvs, h => by
    simp only [boxFree, Bool.and_eq_true, Bool.not_eq_true'] at h
    simp only [configure]
    split
    · next e heq => simp [unbox_type, h.1] at heq
    · next type_ c heq =>
      simp only [unbox_type, h.1] at heq
      cases heq
      simp [configure_mapping, configure_values_id env context kvs h.2,
            isInstanceOf, typeOf]

/-- Elementwise identity of list decoding on box-free elements. -/
theorem configure_elements_id (env : PyEnv) (context : Context) :
    ∀ (xs : List Value), boxFreeList xs = true →
      configure_elements env context xs = .ok xs
  | [], _ => by simp [configure_elements]
  | x :: rest, h => by
    simp only [boxFreeList, Bool.and_eq_true] at h
    simp [configure_elements, configure_id env context x h.1,
          configure_elements_id env context rest h.2]

/-- Valuewise identity of mapping decoding on box-free values. -/
theorem configure_values_id (env : PyEnv) (context : Context) :
    ∀ (kvs : List (String × Value)), boxFreePairs kvs = true →
      configure_values env context kvs = .ok kvs
  | [], _ => by simp [configure_values]
  | (k, v) :: rest, h => by
    simp only [boxFreePairs, Bool.and_eq_true] at h
    simp [configure_values, configure_id env context v h.1,
          configure_values_id env context rest h.2]

end

/-- C1 counterexample: the round-trip identity fails on a string-keyed
mapping of scalars whose key set coincides with the three box keys. Its
encoded form under the default typed flag is itself, and configure then
resolves the tag (builtins, int) through the default context and decodes to
the integer 5, which differs from the original mapping. -/
theorem c1_box_collision_counterexample :
    get_config defaultEnv defaultContext c1_collision_value none =
      .ok c1_collision_value ∧
    configure defaultEnv defaultContext c1_collision_value none =
      .ok (.vint 5) ∧
    decide (Value.vint 5 = c1_collision_value) = false :=
  ⟨rfl, by simp only [configure]; rfl, rfl⟩

/-- C1 (amended): for every value built from scalars, lists and string-keyed
mappings that is box-free — no mapping anywhere inside it has exactly the
key set of the three box keys — configure after get_config under the default
context returns the value unchanged. -/
theorem c1_round_trip_box_free (v : Value) (h : boxFree v = true) :
    ∃ config, get_config defaultEnv defaultContext v none = .ok config ∧
      configure defaultEnv defaultContext config none = .ok v :=
  ⟨v, get_config_id defaultEnv defaultContext v,
      configure_id defaultEnv defaultContext v h⟩

/-- Witness for C1: the concrete value named by the spec is box-free and
round-trips exactly. -/
theorem c1_round_trip_box_free_witness :
    boxFree c1_spec_value = true ∧
    (∃ config,
       get_config defaultEnv defaultContext c1_spec_value none = .ok config ∧
       configure defaultEnv defaultContext config none = .ok c1_spec_value) :=
  ⟨by decide, c1_round_trip_box_free c1_spec_value (by decide)⟩

/-- C2 (code bug): with the all-modules-allowed-by-default flag set, the
imported-modules flag clear, and a module name in neither the denied nor the
allowed list, module_access_is_allowed still answers false — the check for
the all-modules flag sits inside the branch guarded by the imported-modules
flag, so the flag on its own grants nothing. -/
theorem c2_all_modules_flag_ineffective :
    c2_context.all_modules_allowed_by_default = true ∧
    c2_context.imported_modules_allowed_by_default = false ∧
    decide ("collections" ∈ c2_context.specifically_denied_modules) = false ∧
    decide ("collections" ∈ c2_context.specifically_allowed_modules) = false ∧
    c2_context.module_access_is_allowed defaultEnv "collections" = false :=
  ⟨rfl, rfl, rfl, rfl, rfl⟩

/-- C3 counterexample: with typed explicitly false, get_config can still
return a boxed value. The encoded form of this dict is itself; unbox_type
strips exactly one layer, and the entry under the instance key is itself a
dict with the three box keys. -/
theorem c3_typed_false_still_boxed_counterexample :
    get_config defaultEnv defaultContext c3_double_box (some false) =
      .ok c3_inner_box ∧
    isBoxed c3_inner_box = true :=
  ⟨rfl, rfl⟩

/-- C3 (amended): with typed true the dispatch layer boxes the raw hook
output with the tag the context locates for the value's runtime type (the
output itself when it already carries exactly that tag); with typed unset it
does the same whenever the value is Configurable; with typed explicitly
false it applies exactly one unbox_type step to the raw hook output — which
yields the entry under the instance key when that output is boxed, and the
output unchanged otherwise, so the result can itself still be a boxed value
when the instance entry is boxed. -/
theorem c3_typed_flag_semantics (env : PyEnv) (context : Context) (b : Bool)
    (t : PyType) (cfg : Value) (m c : String)
    (hloc : context.locate env t = .ok (m, c)) :
    (∃ w, dispatch_typed env context b t cfg (some true) = .ok w ∧
       isBoxed w = true ∧ boxTag w = some (m, c) ∧
       (w = cfg ∨ boxInstance w = some cfg)) ∧
    (b = true → dispatch_typed env context b t cfg none =
       dispatch_typed env context b t cfg (some true)) ∧
    (dispatch_typed env context b t cfg (some false) =
       Except.map Prod.snd (unbox_type env context cfg)) := by
  refine ⟨?_, ?_, ?_⟩
  · by_cases hb : isBoxedWith m c cfg = true
    · obtain ⟨h1, h2⟩ := isBoxedWith_boxTag m c cfg hb
      exact ⟨cfg, by simp [dispatch_typed, box_type, hloc, hb], h1, h2,
             .inl rfl⟩
    · rw [Bool.not_eq_true] at hb
      exact ⟨mkBox m c cfg, by simp [dispatch_typed, box_type, hloc, hb],
             rfl, rfl, .inr rfl⟩
  · intro hb
    subst hb
    simp [dispatch_typed]
  · cases hu : unbox_type env context cfg <;>
      simp [dispatch_typed, hu, Except.map]

/-- Witness for C3 at a registered user type and a scalar configuration. -/
theorem c3_typed_flag_semantics_witness :
    (∃ w, dispatch_typed defaultEnv oneTypeContext false (.user "mod" "Cls")
        (.vint 1) (some true) = .ok w ∧
       isBoxed w = true ∧ boxTag w = some ("mod", "Cls") ∧
       (w = .vint 1 ∨ boxInstance w = some (.vint 1))) ∧
    (false = true → dispatch_typed defaultEnv oneTypeContext false
        (.user "mod" "Cls") (.vint 1) none =
       dispatch_typed defaultEnv oneTypeContext false (.user "mod" "Cls")
        (.vint 1) (some true)) ∧
    (dispatch_typed defaultEnv oneTypeContext false (.user "mod" "Cls")
        (.vint 1) (some false) =
       Except.map Prod.snd (unbox_type defaultEnv oneTypeContext (.vint 1))) :=
  c3_typed_flag_semantics defaultEnv oneTypeContext false (.user "mod" "Cls")
    (.vint 1) "mod" "Cls" rfl

/-- C4: a configuration that is not a dict with exactly the three box keys
unboxes to its own runtime type and itself unchanged; a dict with exactly
those keys unboxes by resolving the tag through the context's get_type and
returning the entry under the instance key. -/
theorem c4_unbox_type_semantics (env : PyEnv) (context : Context)
    (config : Value) :
    (isBoxed config = false →
       unbox_type env context config = .ok (typeOf config, config)) ∧
    (∀ (kvs : List (String × Value)) (m c : String) (inner : Value),
       config = .vdict kvs → keySetIsBox kvs = true →
       alistGet kvs "__module__" = some (.vstr m) →
       alistGet kvs "__class__" = some (.vstr c) →
       alistGet kvs "__instance__" = some inner →
       unbox_type env context config =
         Except.map (fun t => (t, inner)) (context.get_type env m c false)) := by
  constructor
  · intro h
    cases config
    case vdict kvs =>
      simp only [isBoxed] at h
      simp [unbox_type, h, typeOf]
    all_goals rfl
  · intro kvs m c inner hcfg hks hm hc hi
    subst hcfg
    simp only [unbox_type, hks, hm, hc, hi, if_true]
    cases hg : context.get_type env m c false <;> simp [hg, Except.map]

/-- Witness for C4: an untagged scalar and a boxed dict whose tag is
registered in the context. -/
theorem c4_unbox_type_semantics_witness :
    unbox_type defaultEnv oneTypeContext (.vint 3) = .ok (.intType, .vint 3) ∧
    unbox_type defaultEnv oneTypeContext
        (.vdict [("__module__", .vstr "mod"), ("__class__", .vstr "Cls"),
                 ("__instance__", .vnone)]) =
      .ok (.user "mod" "Cls", .vnone) := by
  constructor
  · exact (c4_unbox_type_semantics defaultEnv oneTypeContext (.vint 3)).1 rfl
  · exact (c4_unbox_type_semantics defaultEnv oneTypeContext _).2
      [("__module__", .vstr "mod"), ("__class__", .vstr "Cls"),
       ("__instance__", .vnone)] "mod" "Cls" .vnone rfl (by decide) rfl rfl rfl

/-- C5: when the context locates the type as the pair (m, c), boxing a
configuration already boxed with exactly that tag returns it unchanged, and
boxing anything else wraps it in a fresh dict with exactly the three box
keys whose instance entry is the configuration. -/
theorem c5_box_type_idempotent (env : PyEnv) (context : Context) (t : PyType)
    (cfg : Value) (m c : String) (hloc : context.locate env t = .ok (m, c)) :
    (isBoxedWith m c cfg = true → box_type env context t cfg = .ok cfg) ∧
    (isBoxedWith m c cfg = false →
       box_type env context t cfg = .ok (mkBox m c cfg) ∧
       isBoxed (mkBox m c cfg) = true ∧
       boxTag (mkBox m c cfg) = some (m, c) ∧
       boxInstance (mkBox m c cfg) = some cfg) := by
  constructor
  · intro hb; simp [box_type, hloc, hb]
  · intro hb; exact ⟨by simp [box_type, hloc, hb], rfl, rfl, rfl⟩

/-- Witness for C5: an already boxed configuration passes through
unchanged; an unboxed one is wrapped. -/
theorem c5_box_type_idempotent_witness :
    (isBoxedWith "mod" "Cls" (mkBox "mod" "Cls" .vnone) = true ∧
     box_type defaultEnv oneTypeContext (.user "mod" "Cls")
        (mkBox "mod" "Cls" .vnone) = .ok (mkBox "mod" "Cls" .vnone)) ∧
    (isBoxedWith "mod" "Cls" (.vint 1) = false ∧
     box_type defaultEnv oneTypeContext (.user "mod" "Cls") (.vint 1) =
       .ok (mkBox "mod" "Cls" (.vint 1))) :=
  ⟨⟨by decide,
    (c5_box_type_idempotent defaultEnv oneTypeContext (.user "mod" "Cls")
      (mkBox "mod" "Cls" .vnone) "mod" "Cls" rfl).1 (by decide)⟩,
   ⟨by decide,
    ((c5_box_type_idempotent defaultEnv oneTypeContext (.user "mod" "Cls")
      (.vint 1) "mod" "Cls" rfl).2 (by decide)).1⟩⟩

/-- C6 counterexample: registering the same (module, class) pair twice with
the same type and without the overwrite flag does not raise — the source
only raises when the pair is bound to a different type. -/
theorem c6_same_type_reregistration_ok :
    alistGet oneTypeContext.registry ("mod", "Cls") =
      some (.user "mod" "Cls") ∧
    ∃ ctx2, oneTypeContext.register (.user "mod" "Cls") none none false
        ⟨"again.py", 8⟩ = .ok ctx2 :=
  ⟨rfl, ⟨_, rfl⟩⟩

/-- C6 (amended): registering a pair already bound to a different type
without overwrite raises the NamingConflict NameError carrying the file and
line of the prior registration; with overwrite the registration succeeds,
the pair is rebound to the new type, and the old type's reverse-lookup
entry is gone. -/
theorem c6_register_conflict_and_overwrite (context : Context)
    (t t2 : PyType) (m c : String) (tb tb2 : Traceback)
    (hreg : alistGet context.registry (m, c) = some t)
    (hfrom : alistGet context.registered_from (m, c) = some tb)
    (hloc : alistGet context.location_map t = some (m, c))
    (hnd : (context.location_map.map Prod.fst).Nodup)
    (hne : t2 ≠ t) :
    context.register t2 (some m) (some c) false tb2 =
      .error (.namingConflict tb.filename tb.lineno) ∧
    ∃ ctx2, context.register t2 (some m) (some c) true tb2 = .ok ctx2 ∧
      alistGet ctx2.registry (m, c) = some t2 ∧
      alistGet ctx2.location_map t2 = some (m, c) ∧
      alistGet ctx2.location_map t = none := by
  obtain ⟨loc2, hdel⟩ := alistDel_isOk context.location_map t (m, c) hloc
  constructor
  · simp [Context.register, hreg, hfrom, Ne.symm hne]
  · refine ⟨{ context with
        registry := alistSet context.registry (m, c) t2
        registered_from := alistSet context.registered_from (m, c) tb2
        location_map := alistSet loc2 t2 (m, c) }, ?_, ?_, ?_, ?_⟩
    · simp [Context.register, hreg, hdel]
    · exact alistGet_alistSet_self context.registry (m, c) t2
    · exact alistGet_alistSet_self loc2 t2 (m, c)
    · rw [alistGet_alistSet_ne loc2 t2 t (m, c) (Ne.symm hne)]
      exact alistGet_after_del context.location_map loc2 t hnd hdel

/-- Witness for C6: a second type registered under the already-bound pair,
without and with overwrite. -/
theorem c6_register_conflict_and_overwrite_witness :
    oneTypeContext.register (.user "mod" "Other") (some "mod") (some "Cls")
        false ⟨"b.py", 2⟩ = .error (.namingConflict "reg.py" 7) ∧
    ∃ ctx2, oneTypeContext.register (.user "mod" "Other") (some "mod")
        (some "Cls") true ⟨"b.py", 2⟩ = .ok ctx2 ∧
      alistGet ctx2.registry ("mod", "Cls") = some (.user "mod" "Other") ∧
      alistGet ctx2.location_map (.user "mod" "Other") = some ("mod", "Cls") ∧
      alistGet ctx2.location_map (.user "mod" "Cls") = none :=
  c6_register_conflict_and_overwrite oneTypeContext (.user "mod" "Cls")
    (.user "mod" "Other") "mod" "Cls" ⟨"reg.py", 7⟩ ⟨"b.py", 2⟩ rfl rfl rfl
    (by decide) (by decide)

/-- C7 (code bug): the decorator form of config_getter with overwrite true
does not replace the old entry. The first call passes the conflict check and
returns the decorator closure, but the closure calls config_getter again
without forwarding overwrite, so applying it to the new encoder raises the
NamingConflict NameError naming the prior registration site even though the
caller requested overwrite. -/
theorem c7_decorator_overwrite_still_raises :
    config_getter [.intType] true none true ⟨"caller.py", 99⟩ c7_state =
      .ok (c7_state, .decorator [.intType] true) ∧
    apply_getter_decorator (.decorator [.intType] true) 2 ⟨"caller.py", 99⟩
        c7_state = .error (.namingConflict "hooks.py" 10) :=
  ⟨rfl, rfl⟩

/-- C8 (code bug): for a property with a declared expected type, the
encoding loop stores the entire (type, configuration) pair returned by
unbox_type — the source assigns the tuple to property_config without
destructuring — rather than the unboxed plain Configuration. -/
theorem c8_declared_type_entry_is_tuple :
    encode_property defaultEnv defaultContext (.vint 5) (some .intType) =
      .ok (.pair .intType (.vint 5)) ∧
    encode_property defaultEnv defaultContext (.vint 5) none =
      .ok (.plain (.vint 5)) :=
  ⟨rfl, rfl⟩

/-- C9: the access checks evaluate explicit deny before explicit allow
before default posture — a denied pair or module fails whatever else holds,
an allowed and not denied pair or module succeeds whatever the default
flags are, and resolving an unregistered pair whose access check fails
raises the AccessDenied NameError. -/
theorem c9_access_precedence (context : Context) (env : PyEnv) (m c : String)
    (load : Bool) :
    ((m, c) ∈ context.specifically_denied_classes →
       context.class_access_is_allowed env m c load = .ok false) ∧
    ((m, c) ∉ context.specifically_denied_classes →
       (m, c) ∈ context.specifically_allowed_classes →
       context.class_access_is_allowed env m c load = .ok true) ∧
    (m ∈ context.specifically_denied_modules →
       context.module_access_is_allowed env m = false) ∧
    (m ∉ context.specifically_denied_modules →
       m ∈ context.specifically_allowed_modules →
       context.module_access_is_allowed env m = true) ∧
    (alistGet context.registry (m, c) = none →
       context.class_access_is_allowed env m c load = .ok false →
       context.get_type env m c load = .error (.accessDenied m c)) := by
  refine ⟨?_, ?_, ?_, ?_, ?_⟩
  · intro h; simp [Context.class_access_is_allowed, h]
  · intro h1 h2; simp [Context.class_access_is_allowed, h1, h2]
  · intro h; simp [Context.module_access_is_allowed, h]
  · intro h1 h2; simp [Context.module_access_is_allowed, h1, h2]
  · intro h1 h2; simp [Context.get_type, h1, h2]

/-- Witness for C9: a pair both denied and allowed is refused, an allowed
pair and module succeed, a denied module is refused, and an unknown pair
resolves to AccessDenied. -/
theorem c9_access_precedence_witness :
    c9_context.class_access_is_allowed defaultEnv "bothm" "B" false =
      .ok false ∧
    c9_context.class_access_is_allowed defaultEnv "allm" "A" false =
      .ok true ∧
    c9_context.module_access_is_allowed defaultEnv "denm" = false ∧
    c9_context.module_access_is_allowed defaultEnv "allm" = true ∧
    c9_context.get_type defaultEnv "nowhere" "X" false =
      .error (.accessDenied "nowhere" "X") :=
  ⟨(c9_access_precedence c9_context defaultEnv "bothm" "B" false).1
     (by decide),
   (c9_access_precedence c9_context defaultEnv "allm" "A" false).2.1
     (by decide) (by decide),
   (c9_access_precedence c9_context defaultEnv "denm" "X" false).2.2.1
     (by decide),
   (c9_access_precedence c9_context defaultEnv "allm" "A" false).2.2.2.1
     (by decide) (by decide),
   (c9_access_precedence c9_context defaultEnv "nowhere" "X" false).2.2.2.2
     (by decide) (by decide)⟩

/-- C10: when the context locates the type as (m, c) and the configuration
is already a boxed value carrying a different tag, box_type wraps again: the
result is a fresh box tagged (m, c) whose instance entry is the entire inner
boxed value. -/
theorem c10_box_type_double_wrap (env : PyEnv) (context : Context)
    (t : PyType) (cfg : Value) (m c m2 c2 : String)
    (hloc : context.locate env t = .ok (m, c))
    (htag : boxTag cfg = some (m2, c2))
    (hne : (m2, c2) ≠ (m, c)) :
    box_type env context t cfg = .ok (mkBox m c cfg) ∧
    isBoxed (mkBox m c cfg) = true ∧
    boxTag (mkBox m c cfg) = some (m, c) ∧
    boxInstance (mkBox m c cfg) = some cfg := by
  have hb := isBoxedWith_false_of_tag_ne m c m2 c2 cfg htag hne
  exact ⟨by simp [box_type, hloc, hb], rfl, rfl, rfl⟩

/-- Witness for C10: boxing a value already boxed with a different tag
produces a nested double box. -/
theorem c10_box_type_double_wrap_witness :
    box_type defaultEnv oneTypeContext (.user "mod" "Cls")
        (mkBox "other" "D" .vnone) =
      .ok (mkBox "mod" "Cls" (mkBox "other" "D" .vnone)) ∧
    isBoxed (mkBox "mod" "Cls" (mkBox "other" "D" .vnone)) = true ∧
    boxTag (mkBox "mod" "Cls" (mkBox "other" "D" .vnone)) =
      some ("mod", "Cls") ∧
    boxInstance (mkBox "mod" "Cls" (mkBox "other" "D" .vnone)) =
      some (mkBox "other" "D" .vnone) :=
  c10_box_type_double_wrap defaultEnv oneTypeContext (.user "mod" "Cls")
    (mkBox "other" "D" .vnone) "mod" "Cls" "other" "D" rfl rfl (by decide)

end JsonConfigs
